import Mathlib

/-!
Verification of the bootstrap / orchestration layer of the SSTImap scanner
(`sstimap.py`): the runtime gate, plugin and data-type discovery, the
post-discovery summaries, the mode dispatcher and the top-level error
handler, shallowly embedded as pure Lean functions.
-/

namespace SSTImap

/-! ## Runtime gate (`check_python_version`, sstimap.py lines 15-30) -/

/-- Result of running `check_python_version`: the console messages printed,
and `exitCode = some c` when the function calls `sys.exit(c)`. -/
structure GateResult where
  messages : List String
  exitCode : Option Nat
deriving Repr, DecidableEq

/-- Embedding of `check_python_version` (sstimap.py lines 15-30).  The
Python code prints and exits with status 1 when the major version is not 3,
prints and exits with status 1 when the minor version is below 6, and prints
a caution (without exiting) when the minor version is above 13. -/
def check_python_version (major_version minor_version : Nat) : GateResult :=
  let version_string := toString major_version ++ "." ++ toString minor_version
  if major_version ≠ 3 then
    { messages := ["\x1b[91m[!]\x1b[0m SSTImap requires Python 3.6 or above. Detected version: " ++ version_string],
      exitCode := some 1 }
  else if minor_version < 6 then
    { messages := ["\x1b[91m[!]\x1b[0m Python " ++ version_string ++ " is not supported. Please upgrade to Python 3.6 or higher."],
      exitCode := some 1 }
  else if minor_version > 13 then
    { messages := ["\x1b[33m[!]\x1b[0m SSTImap was not tested with Python " ++ version_string ++ ". Proceeding with caution..."],
      exitCode := Option.none }
  else
    { messages := [], exitCode := Option.none }

example : (check_python_version 3 11).exitCode = Option.none := by rfl
example : (check_python_version 2 7).exitCode = some 1 := by rfl
example : (check_python_version 3 5).exitCode = some 1 := by rfl
example : (check_python_version 3 14).exitCode = Option.none := by rfl
example : (check_python_version 3 14).messages.length = 1 := by rfl

/-! ## Configuration bundle and mode dispatch (`main`, sstimap.py lines 138-180) -/

/-- A Python value as stored in the configuration dictionary: `None`, a
boolean, or a string.  These are the value shapes the dispatcher reads
(`url`, `load_urls`, `load_forms`, `module` are strings or `None`;
`interactive` is a boolean). -/
inductive PyValue
  | none
  | bool (b : Bool)
  | str (s : String)
deriving Repr, DecidableEq

/-- Python truthiness for the value shapes above: `None` is falsy, a boolean
is itself, a string is truthy when non-empty. -/
def PyValue.truthy : PyValue → Bool
  | .none => false
  | .bool b => b
  | .str s => !(s == "")

/-- The configuration dictionary `configured_args`: a finite map from option
name to value, modelled as an association list (first binding wins, as a
Python dict has unique keys). -/
def Config : Type := List (String × PyValue)

/-- `configured_args.get(key)`: `some v` when the key is present with value
`v`, `Option.none` when the key is absent (Python's `dict.get` returns
`None` then). -/
def Config.get (cfg : Config) (key : String) : Option PyValue :=
  match cfg with
  | [] => Option.none
  | (k, v) :: rest => if k == key then some v else Config.get rest key

/-- Truthiness of `configured_args.get(key)`: an absent key yields Python
`None`, which is falsy. -/
def Config.getTruthy (cfg : Config) (key : String) : Bool :=
  match cfg.get key with
  | Option.none => false
  | some v => v.truthy

/-- The execution mode the dispatcher enters: usage hint, module info with
the selector value read from the bundle, interactive shell, or scan. -/
inductive ExecutionMode
  | usageHint
  | moduleInfo (selector : PyValue)
  | interactive
  | scan
deriving Repr, DecidableEq

/-- Embedding of the routing logic of `main` (sstimap.py lines 161-180).
`no_input_provided` is the negated disjunction of the five truthiness
tests; the branches then test `module`, then `interactive`, else scan.
The direct subscript `configured_args['module']` on line 173 raises
`KeyError` when the key is absent, so it is embedded as the `.error`
branch of an `Except`. -/
def route_mode (configured_args : Config) : Except String ExecutionMode :=
  let no_input_provided :=
    !(configured_args.getTruthy "url" ||
      configured_args.getTruthy "interactive" ||
      configured_args.getTruthy "load_urls" ||
      configured_args.getTruthy "load_forms" ||
      configured_args.getTruthy "module")
  if no_input_provided then
    .ok .usageHint
  else if configured_args.getTruthy "module" then
    match configured_args.get "module" with
    | some selected_module => .ok (.moduleInfo selected_module)
    | Option.none => .error "KeyError: module"
  else if configured_args.getTruthy "interactive" then
    .ok .interactive
  else
    .ok .scan

example : route_mode [] = .ok .usageHint := by rfl
example : route_mode [("url", .str "http://x"), ("interactive", .bool true), ("module", .str "list")]
    = .ok (.moduleInfo (.str "list")) := by rfl
example : route_mode [("interactive", .bool true), ("url", .str "http://x")]
    = .ok .interactive := by rfl
example : route_mode [("url", .str "http://x")] = .ok .scan := by rfl
example : route_mode [("url", .str ""), ("interactive", .bool false)] = .ok .usageHint := by rfl

/-! ## Module option handling (`handle_module_option`, sstimap.py lines 120-124) -/

/-- Embedding of `handle_module_option`: the selector string actually passed
to the reporter `checks.module_info` — the empty string for the special
value `"list"`, the option value unchanged otherwise. -/
def handle_module_option (module_option : String) : String :=
  if module_option == "list" then "" else module_option

/-- A module-info report: either a description of all modules or of the
modules matching a filter. -/
inductive ModuleReport
  | all
  | filtered (selector : String)
deriving Repr, DecidableEq

/-- Modelled from the spec: the reporter `checks.module_info` lives in
`core/checks`, which is not part of the sources; per the spec's dispatcher
contract it describes all modules when given the empty selector (the form
`handle_module_option` produces for `"list"`) and otherwise reports the
modules matching the selector. -/
def module_info (selector : String) : ModuleReport :=
  if selector == "" then .all else .filtered selector

/-! ## Plugin and data-type discovery
(`scan_plugin_folder`, `import_plugins`, `import_data_types`,
sstimap.py lines 46-88) -/

/-- One entry returned by `os.scandir`: its file name and the answers of
`entry.is_file()` / `entry.is_dir()`. -/
structure DirEntry where
  name : String
  is_file : Bool
  is_dir : Bool
deriving Repr, DecidableEq

/-- A first-level entry of the plugin root; when it is a directory, `files`
lists the entries `os.scandir` yields inside it. -/
structure GroupEntry where
  name : String
  is_dir : Bool
  files : List DirEntry
deriving Repr, DecidableEq

/-- The state of the plugin root `{sys.path[0]}/plugins`: `path0` is
`sys.path[0]`, `rootExists` the answer of `os.path.exists`, `entries` the
first-level entries. -/
structure PluginRoot where
  path0 : String
  rootExists : Bool
  entries : List GroupEntry
deriving Repr, DecidableEq

/-- The state of the data-types root `{sys.path[0]}/data_types`. -/
structure DataTypesRoot where
  rootExists : Bool
  entries : List DirEntry
deriving Repr, DecidableEq

/-- Embedding of `scan_plugin_folder` (sstimap.py lines 46-54): when the
plugin directory does not exist, print a warning and return the empty list;
otherwise keep exactly the entries for which `is_dir()` holds.  The first
component collects the printed warnings. -/
def scan_plugin_folder (fs : PluginRoot) : List String × List GroupEntry :=
  let plugin_directory := fs.path0 ++ "/plugins"
  if !fs.rootExists then
    (["[!] Plugin directory not found: " ++ plugin_directory], [])
  else
    ([], fs.entries.filter (fun group => group.is_dir))

/-- Python's `s.endswith(suffix)`, over the character sequence of the
string. -/
def py_endswith (s suffix : String) : Bool :=
  List.isSuffixOf suffix.data s.data

/-- Python's `s.startswith(p)`, over the character sequence of the
string. -/
def py_startswith (s p : String) : Bool :=
  List.isPrefixOf p.data s.data

/-- Python's slice `s[:-n]`: the string without its last `n` characters. -/
def py_drop_last (s : String) (n : Nat) : String :=
  String.mk (s.data.take (s.data.length - n))

/-- The filename filter both loaders apply to a scanned entry
(sstimap.py lines 68 and 85): the name ends with `".py"` and does not start
with `"_"`.  Nothing else about the entry is tested. -/
def module_name_filter (module_name : String) : Bool :=
  py_endswith module_name ".py" && !(py_startswith module_name "_")

/-- The entries of a scanned directory that pass `module_name_filter`, i.e.
exactly those the loaders import. -/
def imported_entries (entries : List DirEntry) : List DirEntry :=
  entries.filter (fun entry => module_name_filter entry.name)

/-- The import paths `import_plugins` produces for one plugin group
(sstimap.py lines 61-70): `plugins.<group>.<name minus ".py">` for every
entry passing the filename filter. -/
def plugin_group_imports (group : GroupEntry) : List String :=
  (imported_entries group.files).map
    (fun entry => "plugins." ++ group.name ++ "." ++ py_drop_last entry.name 3)

/-- Embedding of `import_plugins` (sstimap.py lines 57-70): scan the plugin
root, then import every qualifying module of every group.  Returns the
printed warnings and the list of module paths passed to
`importlib.import_module`, in order. -/
def import_plugins (fs : PluginRoot) : List String × List String :=
  let scanned := scan_plugin_folder fs
  (scanned.1, scanned.2.flatMap plugin_group_imports)

/-- Embedding of `import_data_types` (sstimap.py lines 73-88): when the
data_types directory is missing, print a warning and return; otherwise it
loads `data_types.<name minus ".py">` for every entry passing the
filename filter. -/
def import_data_types (fs : DataTypesRoot) : List String × List String :=
  if !fs.rootExists then
    (["[!] data_types directory missing!"], [])
  else
    ([], (imported_entries fs.entries).map
      (fun entry => "data_types." ++ py_drop_last entry.name 3))

example :
    import_plugins ⟨"/opt/sstimap", true,
      [⟨"engines", true, [⟨"jinja2.py", true, false⟩, ⟨"_util.py", true, false⟩,
                          ⟨"readme.txt", true, false⟩]⟩,
       ⟨"legacy_engines", true, [⟨"smarty.py", true, false⟩]⟩,
       ⟨"notes.md", false, []⟩]⟩
    = ([], ["plugins.engines.jinja2", "plugins.legacy_engines.smarty"]) := by rfl

example :
    import_plugins ⟨"/opt/sstimap", false, []⟩
    = (["[!] Plugin directory not found: /opt/sstimap/plugins"], []) := by rfl

example :
    import_data_types ⟨true, [⟨"json_type.py", true, false⟩, ⟨"_base.py", true, false⟩]⟩
    = ([], ["data_types.json_type"]) := by rfl

example : import_data_types ⟨false, []⟩ = (["[!] data_types directory missing!"], []) := by rfl

/-! ## Post-discovery summaries
(`print_plugin_summary`, `print_data_type_summary`, sstimap.py lines 91-106) -/

/-- The registry `core.plugin.loaded_plugins`: category name, each with the
collection of plugins registered under it (plugins identified by name). -/
abbrev PluginRegistry : Type := List (String × List String)

/-- The registry `core.data_type.loaded_data_types`: data-type name with its
descriptor (identified by name). -/
abbrev DataTypeRegistry : Type := List (String × String)

/-- One `log.log(level, message)` call. -/
structure LogCall where
  level : Nat
  message : String
deriving Repr, DecidableEq

/-- Embedding of `print_plugin_summary` (sstimap.py lines 91-101): build the
`"category: count"` fragment for every registry item in order (the Python
`for` loop appending to `plugin_summary`), join them with `"; "` and log the
joined line at level 26.  The function only reads the registry, so the
embedding returns it unchanged alongside the log call. -/
def print_plugin_summary (loaded_plugins : PluginRegistry) : PluginRegistry × LogCall :=
  let plugin_summary :=
    loaded_plugins.foldl
      (fun acc item => acc ++ [item.1 ++ ": " ++ toString item.2.length]) []
  let summary_str := String.intercalate "; " plugin_summary
  (loaded_plugins, ⟨26, "Loaded plugins by categories: " ++ summary_str⟩)

/-- Embedding of `print_data_type_summary` (sstimap.py lines 103-106): log
the size of the data-type registry at level 26, reading but not modifying
the registry. -/
def print_data_type_summary (loaded_data_types : DataTypeRegistry) :
    DataTypeRegistry × LogCall :=
  (loaded_data_types, ⟨26, "Loaded request body types: " ++ toString loaded_data_types.length ++ "\n"⟩)

example :
    (print_plugin_summary [("engines", ["jinja2", "mako"]), ("legacy_engines", ["smarty"])]).2
    = ⟨26, "Loaded plugins by categories: engines: 2; legacy_engines: 1"⟩ := by rfl

example : (print_data_type_summary [("json_type", "json")]).2
    = ⟨26, "Loaded request body types: 1\n"⟩ := by rfl

/-! ## Top-level handler (`__main__` block, sstimap.py lines 183-197) -/

/-- An exception escaping `check_python_version(); main()`:
`keyboardInterrupt` (operator interruption), `eofError` (end of input),
`systemExit` (raised by `sys.exit`, a `BaseException` that the
`except Exception` clause does not catch), or `exception` — any other
`Exception`, carrying its message and the traceback string
`traceback.format_exc()` would render for it. -/
inductive PyExn
  | keyboardInterrupt
  | eofError
  | systemExit (code : Nat)
  | exception (msg trace : String)
deriving Repr, DecidableEq

/-- What the top-level handler did: whether the bare `print()` ran, the log
calls it made (`log.log(22, ...)` farewell, `log.critical` at level 50,
`log.debug` at level 10), and which exception (if any) it re-raised or let
propagate. -/
structure TopLevelResult where
  printedBlankLine : Bool
  logs : List LogCall
  reraised : Option PyExn
deriving Repr, DecidableEq

/-- Embedding of the `try/except` block at sstimap.py lines 183-197 around
`check_python_version(); main()`.  `KeyboardInterrupt` and `EOFError` each
print a blank line and log one farewell message at level 22 without
re-raising; `SystemExit` is not an `Exception` and propagates untouched;
every other `Exception` is logged twice at critical severity (level 50),
its traceback is logged at debug severity (level 10), and it is re-raised
by `raise err`. -/
def top_level_handler (outcome : Except PyExn Unit) : TopLevelResult :=
  match outcome with
  | .ok _ => ⟨false, [], Option.none⟩
  | .error .keyboardInterrupt =>
      ⟨true, [⟨22, "User interruption. Exiting SSTImap..."⟩], Option.none⟩
  | .error .eofError =>
      ⟨true, [⟨22, "Received EOF. Exiting SSTImap..."⟩], Option.none⟩
  | .error (.systemExit code) => ⟨false, [], some (.systemExit code)⟩
  | .error (.exception msg trace) =>
      ⟨false,
       [⟨50, "An unexpected error occurred!"⟩, ⟨50, "Error: " ++ msg⟩, ⟨10, trace⟩],
       some (.exception msg trace)⟩

/-- The process exit status implied by a `TopLevelResult`: a propagated
`SystemExit` exits with its code, any other uncaught exception makes the
interpreter exit with status 1, and falling off the end of the script exits
with status 0. -/
def exit_status (result : TopLevelResult) : Nat :=
  match result.reraised with
  | Option.none => 0
  | some (.systemExit code) => code
  | some _ => 1

/-! ## Component ordering (`main` and the `__main__` block) -/

/-- The observable component executions of one process run, in order. -/
inductive Event
  | runtimeGate
  | configAssembly
  | banner
  | pluginImport
  | pluginSummary
  | dataTypeImport
  | dataTypeSummary
  | dispatch
deriving Repr, DecidableEq

/-- The sequence of component executions of one run, as laid out by
`check_python_version(); main()` (sstimap.py lines 138-186): the runtime
gate always runs first; when it calls `sys.exit`, the raised `SystemExit`
stops the run before `main` begins; otherwise `main` assembles the
configuration, prints the banner, imports plugins and data types with their
summaries, and finally dispatches on the configuration. -/
def program_trace (major_version minor_version : Nat) : List Event :=
  if (check_python_version major_version minor_version).exitCode.isSome then
    [.runtimeGate]
  else
    [.runtimeGate, .configAssembly, .banner, .pluginImport, .pluginSummary,
     .dataTypeImport, .dataTypeSummary, .dispatch]

example : program_trace 2 7 = [.runtimeGate] := by rfl
example : program_trace 3 12 =
    [.runtimeGate, .configAssembly, .banner, .pluginImport, .pluginSummary,
     .dataTypeImport, .dataTypeSummary, .dispatch] := by rfl

/-! ## Helper lemmas -/

/-- A left fold that pushes `f x` onto the accumulator builds the map. -/
theorem foldl_push_eq_map {α β : Type} (f : α → β) :
    ∀ (l : List α) (acc : List β),
      l.foldl (fun a x => a ++ [f x]) acc = acc ++ l.map f
  | [], acc => by simp
  | x :: xs, acc => by
      simp only [List.foldl_cons, List.map_cons, foldl_push_eq_map f xs]
      simp

/-- A truthy key is present in the configuration dictionary. -/
theorem getTruthy_eq_true_exists_get {cfg : Config} {key : String}
    (h : cfg.getTruthy key = true) : ∃ v, cfg.get key = some v := by
  unfold Config.getTruthy at h
  cases hv : cfg.get key with
  | none => rw [hv] at h; exact absurd h (by simp)
  | some v => exact ⟨v, rfl⟩

/-! ## Claims -/

/-- C1: Mode selection is a total, deterministic function of the five
configuration fields with strict priority: all five falsy yields the usage
hint; otherwise a truthy `module` yields module info regardless of the
other fields; otherwise a truthy `interactive` yields the interactive
shell; otherwise a scan is launched. -/
theorem route_mode_priority (cfg : Config) :
    (cfg.getTruthy "url" = false → cfg.getTruthy "load_urls" = false →
     cfg.getTruthy "load_forms" = false → cfg.getTruthy "interactive" = false →
     cfg.getTruthy "module" = false →
      route_mode cfg = .ok .usageHint) ∧
    (cfg.getTruthy "module" = true →
      ∃ v, cfg.get "module" = some v ∧ route_mode cfg = .ok (.moduleInfo v)) ∧
    (cfg.getTruthy "module" = false → cfg.getTruthy "interactive" = true →
      route_mode cfg = .ok .interactive) ∧
    ((cfg.getTruthy "url" = true ∨ cfg.getTruthy "load_urls" = true ∨
        cfg.getTruthy "load_forms" = true) →
     cfg.getTruthy "module" = false → cfg.getTruthy "interactive" = false →
      route_mode cfg = .ok .scan) := by
  refine ⟨?_, ?_, ?_, ?_⟩
  · intro hu hlu hlf hi hm
    simp [route_mode, hu, hlu, hlf, hi, hm]
  · intro hm
    obtain ⟨v, hv⟩ := getTruthy_eq_true_exists_get hm
    exact ⟨v, hv, by simp [route_mode, hm, hv]⟩
  · intro hm hi
    simp [route_mode, hm, hi]
  · intro hx hm hi
    rcases hx with h | h | h <;> simp [route_mode, h, hm, hi]

/-- Witness for C1 at concrete configurations, one per priority branch. -/
theorem route_mode_priority_witness :
    route_mode [] = .ok .usageHint ∧
    route_mode [("module", .str "list"), ("interactive", .bool true), ("url", .str "http://x")]
      = .ok (.moduleInfo (.str "list")) ∧
    route_mode [("interactive", .bool true), ("url", .str "http://x")] = .ok .interactive ∧
    route_mode [("url", .str "http://x")] = .ok .scan := by
  refine ⟨(route_mode_priority []).1 rfl rfl rfl rfl rfl, ?_, ?_, ?_⟩
  · obtain ⟨v, hv, hroute⟩ :=
      (route_mode_priority
        [("module", .str "list"), ("interactive", .bool true), ("url", .str "http://x")]).2.1 rfl
    have hv2 : some v = some (PyValue.str "list") := hv.symm.trans (by rfl)
    rw [Option.some.inj hv2] at hroute
    exact hroute
  · exact (route_mode_priority [("interactive", .bool true), ("url", .str "http://x")]).2.2.1
      rfl rfl
  · exact (route_mode_priority [("url", .str "http://x")]).2.2.2 (Or.inl rfl) rfl rfl

/-- C2 counterexample: at Python 3.5 the gate exits with status 1 even
though the major version is 3, so the gate does not exit "if and only if
the major version is unsupported". -/
theorem check_python_version_fatal_iff_major_ce :
    ¬ (((check_python_version 3 5).exitCode.isSome = true) ↔ (3 : Nat) ≠ 3) :=
  fun h => (h.mp rfl) rfl

/-- C2 amended: the gate terminates the process (exit status 1) if and only
if the major version is not 3 or the minor version is below 6; for a
supported version with minor above 13 it prints exactly one cautionary
message and proceeds without exiting. -/
theorem check_python_version_exit_conditions (major_version minor_version : Nat) :
    ((check_python_version major_version minor_version).exitCode = some 1 ↔
      (major_version ≠ 3 ∨ minor_version < 6)) ∧
    (major_version = 3 → 13 < minor_version →
      (check_python_version major_version minor_version).exitCode = Option.none ∧
      (check_python_version major_version minor_version).messages.length = 1) := by
  constructor
  · by_cases hmaj : major_version = 3
    · subst hmaj
      by_cases hmin : minor_version < 6
      · simp [check_python_version, hmin]
      · by_cases hcaution : minor_version > 13 <;>
          simp [check_python_version, hmin, hcaution]
    · simp [check_python_version, hmaj]
  · intro hmaj hcaution
    subst hmaj
    have hmin : ¬ minor_version < 6 := by omega
    constructor <;> simp [check_python_version, hmin, hcaution]

/-- Witness for the amended C2 at Python 3.14: no exit, one caution line. -/
theorem check_python_version_exit_conditions_witness :
    (check_python_version 3 14).exitCode = Option.none ∧
    (check_python_version 3 14).messages.length = 1 :=
  (check_python_version_exit_conditions 3 14).2 rfl (by omega)

/-- C3 counterexample: a scanned entry named `"x.py"` that is a directory
rather than a file still passes the loaders' filter and is imported, so
"loaded if and only if it is a file whose name ends with .py and does not
begin with an underscore" fails in its "only if it is a file" part. -/
theorem module_name_filter_ce :
    ¬ (((⟨"x.py", false, true⟩ : DirEntry) ∈ imported_entries [⟨"x.py", false, true⟩]) ↔
        ((⟨"x.py", false, true⟩ : DirEntry).is_file = true ∧
         py_endswith "x.py" ".py" = true ∧ py_startswith "x.py" "_" = false)) := by
  intro h
  have hmem : (⟨"x.py", false, true⟩ : DirEntry) ∈ imported_entries [⟨"x.py", false, true⟩] := by
    decide
  exact absurd (h.mp hmem).1 (by decide)

/-- C3 amended: under both loaders a scanned entry is imported if and only
if its name ends with `".py"` and does not begin with `"_"`; whether the
entry is a regular file is not consulted.  In particular an entry whose
name starts with `"_"` is never imported, and both loaders import exactly
the filtered entries. -/
theorem module_name_filter_amended (entries : List DirEntry) (entry : DirEntry)
    (group : GroupEntry) (fs : DataTypesRoot) :
    (entry ∈ imported_entries entries ↔
      entry ∈ entries ∧ py_endswith entry.name ".py" = true ∧
        py_startswith entry.name "_" = false) ∧
    (py_startswith entry.name "_" = true → entry ∉ imported_entries entries) ∧
    (plugin_group_imports group =
      (imported_entries group.files).map
        (fun e => "plugins." ++ group.name ++ "." ++ py_drop_last e.name 3)) ∧
    (fs.rootExists = true →
      (import_data_types fs).2 =
        (imported_entries fs.entries).map
          (fun e => "data_types." ++ py_drop_last e.name 3)) := by
  refine ⟨?_, ?_, rfl, ?_⟩
  · simp [imported_entries, List.mem_filter, module_name_filter, and_assoc]
  · intro hu hmem
    have := (List.mem_filter.mp hmem).2
    simp [module_name_filter, hu] at this
  · intro h
    simp [import_data_types, h]

/-- Witness for the amended C3: an underscore-prefixed file is skipped and
a qualifying file is imported by the data-type loader. -/
theorem module_name_filter_amended_witness :
    ((⟨"_base.py", true, false⟩ : DirEntry) ∉
        imported_entries [⟨"_base.py", true, false⟩, ⟨"json_type.py", true, false⟩]) ∧
    (import_data_types ⟨true, [⟨"_base.py", true, false⟩, ⟨"json_type.py", true, false⟩]⟩).2
      = ["data_types.json_type"] := by
  constructor
  · exact (module_name_filter_amended
      [⟨"_base.py", true, false⟩, ⟨"json_type.py", true, false⟩]
      ⟨"_base.py", true, false⟩ ⟨"g", true, []⟩ ⟨true, []⟩).2.1 (by decide)
  · have h := (module_name_filter_amended [] ⟨"x", true, false⟩ ⟨"g", true, []⟩
      ⟨true, [⟨"_base.py", true, false⟩, ⟨"json_type.py", true, false⟩]⟩).2.2.2 rfl
    rw [h]
    rfl

/-- C4: when the plugin root or the data-types root does not exist, the
corresponding loader prints exactly its warning line, imports nothing, and
returns this value normally (the embedding is a total function with no
error case), so startup continues. -/
theorem missing_root_recoverable (plugin_fs : PluginRoot) (data_fs : DataTypesRoot) :
    (plugin_fs.rootExists = false →
      import_plugins plugin_fs =
        (["[!] Plugin directory not found: " ++ (plugin_fs.path0 ++ "/plugins")], [])) ∧
    (data_fs.rootExists = false →
      import_data_types data_fs = (["[!] data_types directory missing!"], [])) := by
  constructor
  · intro h
    simp [import_plugins, scan_plugin_folder, h]
  · intro h
    simp [import_data_types, h]

/-- Witness for C4 with both roots absent. -/
theorem missing_root_recoverable_witness :
    import_plugins ⟨"/opt/sstimap", false, []⟩ =
      (["[!] Plugin directory not found: /opt/sstimap/plugins"], []) ∧
    import_data_types ⟨false, []⟩ = (["[!] data_types directory missing!"], []) :=
  ⟨(missing_root_recoverable ⟨"/opt/sstimap", false, []⟩ ⟨false, []⟩).1 rfl,
   (missing_root_recoverable ⟨"/opt/sstimap", false, []⟩ ⟨false, []⟩).2 rfl⟩

/-- C5: a truthy `module` option enters module info with the option value
as selector; the special value `"list"` makes `handle_module_option` call
the reporter with the empty selector, which describes all modules, and
every other value is passed through to the reporter unchanged. -/
theorem handle_module_option_selector (module_option : String) :
    module_info (handle_module_option "list") = .all ∧
    (module_option ≠ "list" → handle_module_option module_option = module_option) := by
  constructor
  · rfl
  · intro h
    simp [handle_module_option, h]

/-- Witness for C5: the `"list"` selector and a pass-through selector. -/
theorem handle_module_option_selector_witness :
    module_info (handle_module_option "list") = .all ∧
    handle_module_option "jinja2" = "jinja2" :=
  ⟨(handle_module_option_selector "jinja2").1,
   (handle_module_option_selector "jinja2").2 (by decide)⟩

/-- C6: in every run the runtime gate is the first component to execute; an
unsupported major version leaves a trace containing nothing but the gate
(no configuration assembly, no loader, no dispatch); and whenever dispatch
occurs, plugin and data-type discovery occur, strictly earlier in the
trace. -/
theorem component_order (major_version minor_version : Nat) :
    (program_trace major_version minor_version).head? = some Event.runtimeGate ∧
    (major_version ≠ 3 →
      program_trace major_version minor_version = [Event.runtimeGate]) ∧
    (Event.dispatch ∈ program_trace major_version minor_version →
      Event.pluginImport ∈ program_trace major_version minor_version ∧
      Event.dataTypeImport ∈ program_trace major_version minor_version ∧
      (program_trace major_version minor_version).indexOf Event.pluginImport <
        (program_trace major_version minor_version).indexOf Event.dispatch ∧
      (program_trace major_version minor_version).indexOf Event.dataTypeImport <
        (program_trace major_version minor_version).indexOf Event.dispatch) := by
  by_cases h : (check_python_version major_version minor_version).exitCode.isSome = true
  · refine ⟨?_, fun _ => ?_, fun hd => ?_⟩
    · simp [program_trace, h]
    · simp [program_trace, h]
    · simp [program_trace, h] at hd
  · have hfull : program_trace major_version minor_version =
        [.runtimeGate, .configAssembly, .banner, .pluginImport, .pluginSummary,
         .dataTypeImport, .dataTypeSummary, .dispatch] := by
      simp [program_trace, h]
    refine ⟨by rw [hfull]; rfl, fun hmaj => ?_, fun _ => ?_⟩
    · exfalso
      have hexit : (check_python_version major_version minor_version).exitCode = some 1 := by
        simp [check_python_version, hmaj]
      rw [hexit] at h
      exact h rfl
    · rw [hfull]
      exact ⟨by decide, by decide, by decide, by decide⟩

/-- Witness for C6: a fatal run at Python 2.7 and a full run at Python 3.12. -/
theorem component_order_witness :
    program_trace 2 7 = [Event.runtimeGate] ∧
    Event.pluginImport ∈ program_trace 3 12 ∧
    (program_trace 3 12).indexOf Event.pluginImport <
      (program_trace 3 12).indexOf Event.dispatch := by
  refine ⟨(component_order 2 7).2.1 (by decide), ?_, ?_⟩
  · exact ((component_order 3 12).2.2 (by decide)).1
  · exact ((component_order 3 12).2.2 (by decide)).2.2.1

/-- C7: the post-discovery summaries are exact and purely observational:
each summary returns its registry unchanged, the plugin summary line joins
exactly one `"category: count"` fragment per registry item where the count
is the length of that category's collection, and the data-type summary line
reports the size of the data-type registry. -/
theorem summary_counts (loaded_plugins : PluginRegistry)
    (loaded_data_types : DataTypeRegistry) :
    (print_plugin_summary loaded_plugins).1 = loaded_plugins ∧
    (print_data_type_summary loaded_data_types).1 = loaded_data_types ∧
    ((print_plugin_summary loaded_plugins).2.message =
      "Loaded plugins by categories: " ++
        String.intercalate "; "
          (loaded_plugins.map (fun item => item.1 ++ ": " ++ toString item.2.length))) ∧
    ((print_data_type_summary loaded_data_types).2.message =
      "Loaded request body types: " ++ toString loaded_data_types.length ++ "\n") ∧
    (∀ category plugin_list, (category, plugin_list) ∈ loaded_plugins →
      (category ++ ": " ++ toString plugin_list.length) ∈
        loaded_plugins.map (fun item => item.1 ++ ": " ++ toString item.2.length)) := by
  refine ⟨rfl, rfl, ?_, rfl, ?_⟩
  · show "Loaded plugins by categories: " ++
        String.intercalate "; "
          (loaded_plugins.foldl
            (fun acc item => acc ++ [item.1 ++ ": " ++ toString item.2.length]) []) = _
    rw [foldl_push_eq_map]
    rfl
  · intro category plugin_list hmem
    exact List.mem_map_of_mem _ hmem

/-- Witness for C7 on a two-category registry. -/
theorem summary_counts_witness :
    ("engines" ++ ": " ++ toString (["jinja2", "mako"] : List String).length) ∈
      ([("engines", ["jinja2", "mako"]), ("legacy_engines", ["smarty"])] : PluginRegistry).map
        (fun item => item.1 ++ ": " ++ toString item.2.length) :=
  (summary_counts [("engines", ["jinja2", "mako"]), ("legacy_engines", ["smarty"])]
    []).2.2.2.2 "engines" ["jinja2", "mako"] (by simp)

/-- C8: an exception escaping discovery or dispatch that is neither an
operator interruption nor end-of-input is logged by the top-level handler
at critical severity (level 50) with its message, its traceback is logged
at debug severity (level 10), and it is re-raised, so the process exits
with a non-zero status; it is never swallowed. -/
theorem unexpected_error_logged (msg trace : String) :
    (top_level_handler (.error (.exception msg trace))).logs =
      [⟨50, "An unexpected error occurred!"⟩, ⟨50, "Error: " ++ msg⟩, ⟨10, trace⟩] ∧
    (top_level_handler (.error (.exception msg trace))).reraised =
      some (.exception msg trace) ∧
    exit_status (top_level_handler (.error (.exception msg trace))) = 1 :=
  ⟨rfl, rfl, rfl⟩

/-- C9: mode dispatch is total over the configuration bundle: every
configuration, including one missing any of the five keys, yields a mode
(the dispatcher never reaches its `KeyError` branch), and an absent key is
treated as falsy. -/
theorem route_mode_total (cfg : Config) :
    (∃ mode, route_mode cfg = .ok mode) ∧
    (∀ key, cfg.get key = Option.none → cfg.getTruthy key = false) := by
  constructor
  · cases hv : cfg.get "module" with
    | none =>
        have hm : cfg.getTruthy "module" = false := by
          unfold Config.getTruthy
          rw [hv]
        simp only [route_mode, hm]
        simp only [Bool.false_eq_true, if_false]
        split
        · exact ⟨_, rfl⟩
        · split
          · exact ⟨_, rfl⟩
          · exact ⟨_, rfl⟩
    | some v =>
        simp only [route_mode, hv]
        split
        · exact ⟨_, rfl⟩
        · split
          · exact ⟨_, rfl⟩
          · split
            · exact ⟨_, rfl⟩
            · exact ⟨_, rfl⟩
  · intro key h
    unfold Config.getTruthy
    rw [h]

/-- Witness for C9: a bundle with every dispatcher key absent still yields
a mode, and its absent `module` key reads as falsy. -/
theorem route_mode_total_witness :
    (∃ mode, route_mode [("colour", .bool true)] = .ok mode) ∧
    Config.getTruthy [("colour", .bool true)] "module" = false :=
  ⟨(route_mode_total [("colour", .bool true)]).1,
   (route_mode_total [("colour", .bool true)]).2 "module" rfl⟩

/-- C10: on a keyboard interrupt or end-of-input the top-level handler
prints a blank line, logs exactly one farewell message at level 22, does
not re-raise, and the process exits with status 0. -/
theorem interruption_graceful :
    (top_level_handler (.error .keyboardInterrupt)).printedBlankLine = true ∧
    (top_level_handler (.error .keyboardInterrupt)).logs =
      [⟨22, "User interruption. Exiting SSTImap..."⟩] ∧
    (top_level_handler (.error .keyboardInterrupt)).reraised = Option.none ∧
    exit_status (top_level_handler (.error .keyboardInterrupt)) = 0 ∧
    (top_level_handler (.error .eofError)).printedBlankLine = true ∧
    (top_level_handler (.error .eofError)).logs =
      [⟨22, "Received EOF. Exiting SSTImap..."⟩] ∧
    (top_level_handler (.error .eofError)).reraised = Option.none ∧
    exit_status (top_level_handler (.error .eofError)) = 0 :=
  ⟨rfl, rfl, rfl, rfl, rfl, rfl, rfl, rfl⟩

end SSTImap
